import Mathlib

/-!
Shallow embedding of the catalog analytics engine in
`smart-shop-mvp/dataStore.js` (text normalization, sentiment scoring,
review summarization, cached catalog queries), together with theorems
settling the specification claims about it.

Modelling conventions:
* JavaScript numbers that flow through already-validated arithmetic are
  modelled as rationals (ℚ); the separate load-time parsing model uses
  `JNum`, which keeps the `NaN` outcome of `Number(...)` explicit.
* JavaScript `Array.prototype.sort` with a numeric comparator is stable;
  it is modelled by `List.insertionSort` with the corresponding total
  preorder, which is the stable sort for that comparator.
* `Map` iteration order is insertion order; the word-count map of
  `summarizeReviews` is modelled as an association list in first-seen
  order, and `productById` / `reviewsByProduct` as list lookups with the
  same observable behaviour (last-wins for duplicate product ids,
  source order within a review group).
* String operations are defined by structural recursion over the
  character list so that every definition evaluates by kernel reduction.
-/

namespace SmartShop

/-- ASCII lowercasing of one character, as `toLowerCase` acts on the
ASCII range (the only range exercised by the data and queries). -/
def lowerChar (c : Char) : Char :=
  if 'A' ≤ c && c ≤ 'Z' then Char.ofNat (c.toNat + 32) else c

/-- Characters matched by the JavaScript regex class `\s` (ASCII part;
the source data and queries are ASCII). -/
def jsWhitespace (c : Char) : Bool :=
  c = ' ' || c = '\t' || c = '\n' || c = '\r' || c = '\x0b' || c = '\x0c'

/-- Characters kept by `normalizeText`: the class `[a-z0-9\s]`. -/
def keepChar (c : Char) : Bool :=
  ('a' ≤ c && c ≤ 'z') || ('0' ≤ c && c ≤ '9') || jsWhitespace c

/-- `normalizeText` (dataStore.js:39-41) on the character list:
lowercase, then replace every character outside `[a-z0-9\s]` with a
space. -/
def normalizeChars (cs : List Char) : List Char :=
  cs.map (fun c => let lc := lowerChar c; if keepChar lc then lc else ' ')

/-- `normalizeText` (dataStore.js:39-41). -/
def normalizeText (text : String) : String :=
  String.mk (normalizeChars text.toList)

/-- Split a character list at every character satisfying `sep`, keeping
empty pieces at separator boundaries (as JavaScript `split` does). -/
def splitChars (sep : Char → Bool) : List Char → List Char → List String
  | [], acc => [String.mk acc.reverse]
  | c :: cs, acc =>
    if sep c then String.mk acc.reverse :: splitChars sep cs []
    else splitChars sep cs (c :: acc)

/-- The `STOPWORDS` set (dataStore.js:14-18). -/
def STOPWORDS : List String :=
  ["the", "and", "a", "an", "is", "it", "this", "that", "to", "of", "for", "in", "on", "with",
   "very", "really", "my", "our", "your", "all", "at", "as", "was", "were", "be", "are", "but",
   "so", "if", "by", "from", "has", "have", "had", "its", "i", "me", "we", "you", "they"]

/-- `tokenize` (dataStore.js:43-47): normalize, split on whitespace, drop
empty tokens and stopwords.  JavaScript `split(/\s+/)` yields empty
strings only at separator boundaries and the `token &&` filter removes
them, so splitting at every whitespace character and filtering empties
is observably identical. -/
def tokenize (text : String) : List String :=
  (splitChars jsWhitespace (normalizeChars text.toList) []).filter
    (fun token => token ≠ "" && ¬ STOPWORDS.contains token)

/-- The positive half of `SENTIMENT_LEXICON` (dataStore.js:20-23). -/
def positiveWords : List String :=
  ["great", "excellent", "amazing", "love", "fast", "snappy", "beautiful", "clear", "crystal",
   "smooth", "awesome", "perfect", "good", "durable", "battery", "bright"]

/-- The negative half of `SENTIMENT_LEXICON` (dataStore.js:20-23). -/
def negativeWords : List String :=
  ["bad", "poor", "slow", "broken", "cracked", "damage", "overheats", "lag", "laggy", "heavy",
   "dim", "terrible", "awful", "disappoint", "noisy"]

/-- `scoreSentiment` (dataStore.js:49-57): +1 per positive-lexicon token,
−1 per negative-lexicon token, summed over the tokens. -/
def scoreSentiment (text : String) : Int :=
  (tokenize text).foldl
    (fun score token =>
      score + (if positiveWords.contains token then 1 else 0)
            - (if negativeWords.contains token then 1 else 0))
    0

/-- A string argument as JavaScript receives it: possibly `undefined`.
Used to model the behaviour of `normalizeText` on an absent argument. -/
inductive JsStrArg where
  | undef : JsStrArg
  | str : String → JsStrArg
deriving DecidableEq, Repr

/-- `normalizeText` as invoked on a possibly-`undefined` argument:
`undefined.toLowerCase()` raises a `TypeError`, so the `undef` case is a
thrown exception, not a return value. -/
def normalizeTextJs : JsStrArg → Except String String
  | JsStrArg.undef => Except.error "TypeError: Cannot read properties of undefined"
  | JsStrArg.str s => Except.ok (normalizeText s)

/-- A product entity as built by `load()` from a well-formed row
(dataStore.js:132-141); numeric fields are modelled as rationals. -/
structure Product where
  id : String
  name : String
  brand : String
  category : String
  price : ℚ
  description : String
  stock : ℚ
  rating : ℚ
deriving DecidableEq, Repr

/-- A review entity as built by `load()` (dataStore.js:143-148). -/
structure Review where
  product_id : String
  rating : ℚ
  text : String
  date : String
deriving DecidableEq, Repr

/-- A policy entity as built by `parsePolicies` (dataStore.js:30-37). -/
structure Policy where
  policy_type : String
  description : String
  conditions : List String
  timeframe : ℚ
deriving DecidableEq, Repr

/-- The sentiment bucket counters of a review summary. -/
structure SentimentBuckets where
  positive : ℕ
  neutral : ℕ
  negative : ℕ
deriving DecidableEq, Repr

/-- The result shape of `summarizeReviews` (dataStore.js:59-98); a theme
is a `(word, count)` pair. -/
structure Summary where
  average_rating : ℚ
  total_reviews : ℕ
  sentiment : SentimentBuckets
  themes : List (String × ℕ)
deriving DecidableEq, Repr

/-- `Number(x.toFixed(2))`: round to two decimal places (half up).
JavaScript `toFixed` rounds the binary double to the nearest hundredth;
on the exact decimal values arising here the two agree. -/
def round2 (q : ℚ) : ℚ :=
  ((⌊q * 100 + 1 / 2⌋ : ℤ) : ℚ) / 100

/-- Stable descending sort by a rational key: the model of JavaScript
`sort((a, b) => key(b) - key(a))`, whose result on a stable sort engine
is exactly insertion sort under the total preorder `key b ≤ key a`. -/
def sortDescBy {α : Type} (key : α → ℚ) (l : List α) : List α :=
  l.insertionSort (fun a b => key b ≤ key a)

/-- Stable ascending sort by a rational key: the model of JavaScript
`sort((a, b) => key(a) - key(b))`. -/
def sortAscBy {α : Type} (key : α → ℚ) (l : List α) : List α :=
  l.insertionSort (fun a b => key a ≤ key b)

/-- One step of the `wordCounts` map update
`wordCounts.set(token, (wordCounts.get(token) || 0) + 1)`
(dataStore.js:82-84), on an association list kept in first-seen
(insertion) order exactly as a JavaScript `Map` iterates. -/
def bumpCount : List (String × ℕ) → String → List (String × ℕ)
  | [], t => [(t, 1)]
  | (w, c) :: rest, t =>
    if w = t then (w, c + 1) :: rest else (w, c) :: bumpCount rest t

/-- The full `wordCounts` map after the review loop (dataStore.js:75-85):
tokens of each review body, in review order. -/
def wordCountsOf (reviews : List Review) : List (String × ℕ) :=
  reviews.foldl (fun m r => (tokenize r.text).foldl bumpCount m) []

/-- The test of the `positive` branch (dataStore.js:78):
`review.rating >= 4 || sentimentScore > 0`.  (`review.text || ""` is the
identity here because `text` is modelled as a string.) -/
def reviewPositive (r : Review) : Bool :=
  4 ≤ r.rating || 0 < scoreSentiment r.text

/-- The test of the `negative` branch (dataStore.js:79): reached only
when the positive test failed, then `review.rating <= 2 || sentimentScore < 0`. -/
def reviewNegative (r : Review) : Bool :=
  !reviewPositive r && (r.rating ≤ 2 || scoreSentiment r.text < 0)

/-- The residual `neutral` branch (dataStore.js:80). -/
def reviewNeutral (r : Review) : Bool :=
  !reviewPositive r && !reviewNegative r

/-- `summarizeReviews` (dataStore.js:59-98).  The single loop over the
reviews accumulates four independent quantities (rating total, the three
disjoint bucket counters, the word-count map); they are written here as
separate folds/counts over the same list, which compute the same values.
`total += Number(review.rating) || 0` is the identity sum on rational
ratings (`Number` of a number is itself; `|| 0` only rewrites `0`/`NaN`
to `0`). -/
def summarizeReviews (reviews : List Review) : Summary :=
  if reviews.length = 0 then
    { average_rating := 0, total_reviews := 0,
      sentiment := { positive := 0, neutral := 0, negative := 0 }, themes := [] }
  else
    { average_rating := round2 ((reviews.map Review.rating).sum / reviews.length),
      total_reviews := reviews.length,
      sentiment :=
        { positive := reviews.countP reviewPositive,
          neutral := reviews.countP reviewNeutral,
          negative := reviews.countP reviewNegative },
      themes := (sortDescBy (fun wc => (wc.2 : ℚ)) (wordCountsOf reviews)).take 5 }

/-- Does `needle` occur at the head of `hay`? -/
def charsStart : List Char → List Char → Bool
  | [], _ => true
  | _ :: _, [] => false
  | a :: as, b :: bs => a = b && charsStart as bs

/-- Does `needle` occur as a contiguous run anywhere in `hay`?  Models
JavaScript `hay.includes(needle)`. -/
def charsContain (needle : List Char) : List Char → Bool
  | [] => charsStart needle []
  | c :: t => charsStart needle (c :: t) || charsContain needle t

/-- `haystack.includes(token)` on strings. -/
def containsToken (haystack : String) (token : String) : Bool :=
  charsContain token.toList haystack.toList

/-- The lowercased `name brand category description` haystack of
`getTextScore` (dataStore.js:101). -/
def productHaystack (product : Product) : String :=
  String.mk ((product.name ++ " " ++ product.brand ++ " " ++ product.category ++ " " ++
    product.description).toList.map lowerChar)

/-- `getTextScore` (dataStore.js:100-107): +2 per query token occurring
as a substring of the lowercased haystack. -/
def getTextScore (product : Product) (queryTokens : List String) : ℕ :=
  queryTokens.foldl
    (fun score token =>
      if containsToken (productHaystack product) token then score + 2 else score)
    0

/-- `scoreRecommendation` (dataStore.js:109-114).  `candidate.rating || 0`
is the identity on rational ratings except at `0`, where it also yields
`0`. -/
def scoreRecommendation (baseProduct candidate : Product) : ℚ :=
  let priceDiff := |candidate.price - baseProduct.price|
  let priceScore := 1 - min (priceDiff / max baseProduct.price 1) 1
  let stockScore : ℚ := if 0 < candidate.stock then 1 else 0
  candidate.rating * 2 + priceScore + stockScore

/-- The `productById` map lookup (dataStore.js:152, 220-221, 254, 280,
293).  `new Map(products.map(p => [p.id, p]))` keeps, for a duplicated
id, the last entry, which the fold below reproduces. -/
def productById (products : List Product) (productId : String) : Option Product :=
  products.foldl (fun found p => if p.id = productId then some p else found) none

/-- The filter object accepted by `getProducts` (dataStore.js:183).
`none` models an absent (`undefined`) field; JavaScript truthiness makes
the empty string behave like an absent `category`/`query`, while
`minPrice`/`maxPrice` are tested with `!= null`. -/
structure Filters where
  category : Option String := none
  query : Option String := none
  minPrice : Option ℚ := none
  maxPrice : Option ℚ := none
  inStockOnly : Bool := false
deriving DecidableEq, Repr

/-- `getProducts` (dataStore.js:183-216) on a snapshot's product list:
category filter, text-query scoring/ranking, min price, max price,
in-stock filter, in that order. -/
def getProducts (products : List Product) (filters : Filters) : List Product :=
  let r1 :=
    match filters.category with
    | some c => if c = "" then products else products.filter (fun p => p.category = c)
    | none => products
  let r2 :=
    match filters.query with
    | some q =>
      if q = "" then r1
      else
        let tokens := tokenize q
        (sortDescBy (fun item => (item.2 : ℚ))
            ((r1.map (fun p => (p, getTextScore p tokens))).filter
              (fun item => 0 < item.2))).map (fun item => item.1)
    | none => r1
  let r3 :=
    match filters.minPrice with
    | some m => r2.filter (fun p => m ≤ p.price)
    | none => r2
  let r4 :=
    match filters.maxPrice with
    | some m => r3.filter (fun p => p.price ≤ m)
    | none => r3
  if filters.inStockOnly then r4.filter (fun p => 0 < p.stock) else r4

/-- `getRecommendations` (dataStore.js:218-244): the base-product mode
when `productId` is truthy and resolves, else the query mode when
`query` is truthy, else the global top-rated fallback. -/
def getRecommendations (products : List Product)
    (productId : Option String) (query : Option String) : List Product :=
  let resolved : Option (String × Product) :=
    match productId with
    | some pid => if pid = "" then none else (productById products pid).map (fun b => (pid, b))
    | none => none
  match resolved with
  | some (pid, baseProduct) =>
    ((sortDescBy (fun item => item.2)
        ((products.filter (fun p => p.category = baseProduct.category && ¬ p.id = pid)).map
          (fun p => (p, scoreRecommendation baseProduct p)))).take 6).map
      (fun item => item.1)
  | none =>
    match query with
    | some q =>
      if q = "" then (sortDescBy Product.rating products).take 6
      else
        let tokens := tokenize q
        ((sortDescBy (fun item => item.2)
            ((products.map (fun p => (p, (getTextScore p tokens : ℚ) + p.rating))).filter
              (fun item => 0 < item.2))).take 6).map
          (fun item => item.1)
    | none => (sortDescBy Product.rating products).take 6

/-- The `reviewsByProduct` grouping plus `get(productId) || []`
(dataStore.js:153-159, 248): reviews with the given product id, in
source order. -/
def reviewsForProduct (reviews : List Review) (productId : String) : List Review :=
  reviews.filter (fun r => r.product_id = productId)

/-- `getReviewSummary` (dataStore.js:246-250). -/
def getReviewSummary (reviews : List Review) (productId : String) : Summary :=
  summarizeReviews (reviewsForProduct reviews productId)

/-- `Math.min(...prices)` on the non-empty price list of a category
(the base product is always in its own category, so the list is never
empty; `Math.min()` of no arguments would be `Infinity`). -/
def listMin : List ℚ → ℚ
  | [] => 0
  | p :: rest => rest.foldl min p

/-- `Math.max(...prices)`, same conventions as `listMin`. -/
def listMax : List ℚ → ℚ
  | [] => 0
  | p :: rest => rest.foldl max p

/-- The result shape of `getPriceComparison` (dataStore.js:268-275),
without the `updated_at` freshness timestamp (a cache bookkeeping value
independent of the snapshot contents). -/
structure PriceComparison where
  base : Product
  min : ℚ
  max : ℚ
  avg : ℚ
  cheaper : List Product
deriving DecidableEq, Repr

/-- `getPriceComparison` (dataStore.js:252-276): `null` when the id does
not resolve; otherwise min/max/mean price over the base's category (each
through `toFixed(2)`) and up to 5 strictly cheaper products sorted
ascending by price. -/
def getPriceComparison (products : List Product) (productId : String) :
    Option PriceComparison :=
  match productById products productId with
  | none => none
  | some product =>
    let categoryProducts := products.filter (fun p => p.category = product.category)
    let prices := categoryProducts.map Product.price
    let avg := prices.sum / prices.length
    let cheaper :=
      (sortAscBy Product.price
        (categoryProducts.filter (fun p => p.price < product.price))).take 5
    some
      { base := product,
        min := round2 (listMin prices),
        max := round2 (listMax prices),
        avg := round2 avg,
        cheaper := cheaper }

/-- `CATEGORY_POLICY_MAP` (dataStore.js:7-12), as the partial lookup it
denotes: `none` is JavaScript `undefined` for an unmapped category. -/
def CATEGORY_POLICY_MAP (category : String) : Option String :=
  if category = "laptop" then some "Laptop Return Policy"
  else if category = "smartphone" then some "Smartphone Return Policy"
  else if category = "smart_tv" then some "Smart TV Return Policy"
  else if category = "speaker" then some "Speaker Return Policy"
  else none

/-- `getPolicyByCategory` (dataStore.js:287-291):
`policies.find(policy => policy.description === policyName) || null`.
When the category is unmapped, `policyName` is `undefined` and the
strict equality with a string description is always false, which the
`Option` equality below reproduces. -/
def getPolicyByCategory (policies : List Policy) (category : String) : Option Policy :=
  let policyName := CATEGORY_POLICY_MAP category
  policies.find? (fun policy => policyName = some policy.description)

/-- `getPolicyForProduct` (dataStore.js:278-285): resolve the product,
`null` when absent, else the category lookup. -/
def getPolicyForProduct (products : List Product) (policies : List Policy)
    (productId : String) : Option Policy :=
  match productById products productId with
  | none => none
  | some product => getPolicyByCategory policies product.category

/-- A JavaScript number as produced by `Number(...)` at load time: a
rational value or `NaN`. -/
inductive JNum where
  | nan : JNum
  | val : ℚ → JNum
deriving DecidableEq, Repr

/-- Digits of a decimal numeral; `none` when some character is not a
digit. -/
def digitsVal : List Char → Option ℕ
  | [] => some 0
  | c :: cs =>
    if '0' ≤ c && c ≤ '9' then
      (digitsVal cs).map (fun n => (c.toNat - '0'.toNat) * 10 ^ cs.length + n)
    else none

/-- An unsigned decimal numeral, possibly with a fractional part, as
`Number(...)` accepts it (`"12"`, `"12.5"`, `"12."`, `".5"`). -/
def jsUnsigned (cs : List Char) : Option ℚ :=
  match cs.splitOn '.' with
  | [intPart] =>
    if intPart = [] then none
    else (digitsVal intPart).map (fun n => (n : ℚ))
  | [intPart, fracPart] =>
    if intPart = [] && fracPart = [] then none
    else
      match digitsVal intPart, digitsVal fracPart with
      | some n, some f => some ((n : ℚ) + (f : ℚ) / 10 ^ fracPart.length)
      | _, _ => none
  | _ => none

/-- `Number(s)` on a string field: trim whitespace; the empty string is
`0`; a signed decimal numeral is its value; anything else is `NaN`.
(The hexadecimal, exponent and `Infinity` forms `Number` also accepts do
not occur in tabular numeric fields and are not modelled.) -/
def jsNumber (s : String) : JNum :=
  let t := (s.toList.dropWhile (fun c => jsWhitespace c)).reverse.dropWhile
    (fun c => jsWhitespace c) |>.reverse
  match t with
  | [] => JNum.val 0
  | '-' :: rest =>
    match jsUnsigned rest with
    | some q => JNum.val (-q)
    | none => JNum.nan
  | '+' :: rest =>
    match jsUnsigned rest with
    | some q => JNum.val q
    | none => JNum.nan
  | _ =>
    match jsUnsigned t with
    | some q => JNum.val q
    | none => JNum.nan

/-- A row of `products.csv` as `csv-parse` hands it to `load()`: every
field is a string. -/
structure ProductRow where
  id : String
  name : String
  brand : String
  category : String
  price : String
  description : String
  stock : String
  rating : String
deriving DecidableEq, Repr

/-- A product as `load()` actually builds it (dataStore.js:132-141):
the numeric fields go through `Number(...)` and may be `NaN`. -/
structure LoadedProduct where
  id : String
  name : String
  brand : String
  category : String
  price : JNum
  description : String
  stock : JNum
  rating : JNum
deriving DecidableEq, Repr

/-- The product-mapping step of `load()` (dataStore.js:132-141).  Its
type already records that no parse failure is ever signalled: every row
yields a product, whatever the numeric fields hold. -/
def loadProducts (rows : List ProductRow) : List LoadedProduct :=
  rows.map (fun row =>
    { id := row.id, name := row.name, brand := row.brand, category := row.category,
      price := jsNumber row.price, description := row.description,
      stock := jsNumber row.stock, rating := jsNumber row.rating })

/-- A row of `store_policies.csv` as handed to `parsePolicies`. -/
structure PolicyRow where
  policy_type : String
  description : String
  conditions : String
  timeframe : String
deriving DecidableEq, Repr

/-- A policy as `parsePolicies` actually builds it (dataStore.js:30-37),
with the `Number(row.timeframe)` outcome kept explicit. -/
structure LoadedPolicy where
  policy_type : String
  description : String
  conditions : List String
  timeframe : JNum
deriving DecidableEq, Repr

/-- Split a string at `|` separators (JavaScript `split("|")`). -/
def splitBar (s : String) : List String :=
  splitChars (fun c => c = '|') s.toList []

/-- `parsePolicies` (dataStore.js:30-37): `row.conditions ? split : []`,
`timeframe: Number(row.timeframe)`.  As with `loadProducts`, the type
shows that no row is rejected. -/
def parsePolicies (rows : List PolicyRow) : List LoadedPolicy :=
  rows.map (fun row =>
    { policy_type := row.policy_type, description := row.description,
      conditions := if row.conditions = "" then [] else splitBar row.conditions,
      timeframe := jsNumber row.timeframe })

/-- The state owned by the catalog cache (dataStore.js:121-123): the
snapshot (`null` until the first load), the wall-clock time of the last
load, and the last observed maximum source modification time.  The
snapshot is abstracted to its product/review/policy contents. -/
structure Snapshot where
  products : List Product
  reviews : List Review
  policies : List Policy
deriving DecidableEq, Repr

/-- The cache bookkeeping of `createDataStore` (dataStore.js:121-123). -/
structure CacheState where
  cache : Option Snapshot
  lastLoaded : ℤ
  lastModified : ℚ
deriving DecidableEq, Repr

/-- The environment one `ensureFresh` call runs in: the current clock
(`Date.now()`), the maximum source file modification time a stat would
observe, and the snapshot a full `load()` would produce from the files. -/
structure FsEnv where
  now : ℤ
  mtime : ℚ
  disk : Snapshot
deriving DecidableEq, Repr

/-- What one `ensureFresh` call did: the resulting state, whether it ran
`getLastModified` (the filesystem check), and whether it ran `load()`. -/
structure FreshResult where
  state : CacheState
  checkedFs : Bool
  reloaded : Bool
deriving DecidableEq, Repr

/-- `load()`'s effect on the cache bookkeeping (dataStore.js:161-170):
swap in the freshly read snapshot, stamp `lastLoaded` with the clock and
`lastModified` with the observed mtime. -/
def loadStep (env : FsEnv) : CacheState :=
  { cache := some env.disk, lastLoaded := env.now, lastModified := env.mtime }

/-- `ensureFresh` (dataStore.js:173-181): inside the staleness window a
non-null cache short-circuits both the filesystem check and the reload;
past the window the mtime is re-checked and `load()` runs only when the
cache is null or the mtime strictly increased. -/
def ensureFresh (env : FsEnv) (st : CacheState) : FreshResult :=
  if st.cache = none ∨ 30000 < env.now - st.lastLoaded then
    if st.cache = none ∨ st.lastModified < env.mtime then
      { state := loadStep env, checkedFs := true, reloaded := true }
    else
      { state := st, checkedFs := true, reloaded := false }
  else
    { state := st, checkedFs := false, reloaded := false }

/-! ### Spec-side definitions

These follow the wording of the specification (for refinement-style
claims), to be compared with the definitions above, which follow the
source. -/

/-- The text-query score as §4.5a words it: "+2 hit" for each query
token appearing as a substring of the case-insensitive concatenation of
name+brand+category+description. -/
def specTextScore (product : Product) (queryTokens : List String) : ℕ :=
  2 * queryTokens.countP (fun token => containsToken (productHaystack product) token)

/-- `get_products` as §4.5 words it: filters in the fixed order
category, text query, min price (inclusive), max price (inclusive),
in-stock; the query step scores with `specTextScore`, drops zero scores
and stable-sorts descending. -/
def specGetProducts (products : List Product) (filters : Filters) : List Product :=
  let afterCategory :=
    match filters.category with
    | some c => products.filter (fun p => p.category = c)
    | none => products
  let afterQuery :=
    match filters.query with
    | some q =>
      let tokens := tokenize q
      (sortDescBy (fun item => (item.2 : ℚ))
          ((afterCategory.map (fun p => (p, specTextScore p tokens))).filter
            (fun item => 0 < item.2))).map (fun item => item.1)
    | none => afterCategory
  let afterMin :=
    match filters.minPrice with
    | some m => afterQuery.filter (fun p => m ≤ p.price)
    | none => afterQuery
  let afterMax :=
    match filters.maxPrice with
    | some m => afterMin.filter (fun p => p.price ≤ m)
    | none => afterMin
  if filters.inStockOnly then afterMax.filter (fun p => 0 < p.stock) else afterMax

/-- A candidate's score as §4.5 mode 1 words it: rating×2 +
price-proximity + stock score. -/
def specRecScore (base candidate : Product) : ℚ :=
  candidate.rating * 2 +
    (1 - min (|candidate.price - base.price| / max base.price 1) 1) +
    (if 0 < candidate.stock then 1 else 0)

/-- Item-similarity recommendations as §4.5 mode 1 words them: the other
products of the base's category, stable-sorted descending by
`specRecScore`, top 6. -/
def specRecommendations (products : List Product) (productId : String)
    (base : Product) : List Product :=
  ((sortDescBy (fun item => item.2)
      ((products.filter (fun p => p.category = base.category && ¬ p.id = productId)).map
        (fun p => (p, specRecScore base p)))).take 6).map (fun item => item.1)

/-- All review-body tokens, in review order (the stream over which §4.3
counts theme frequencies). -/
def allTokensOf (reviews : List Review) : List String :=
  reviews.foldl (fun acc r => acc ++ tokenize r.text) []

/-- Token frequencies in first-seen order. -/
def firstSeenCounts (tokens : List String) : List (String × ℕ) :=
  tokens.foldl bumpCount []

/-- Themes as §4.3 words them: token frequencies over all review bodies,
stable-sorted descending by count (ties in first-seen order), top 5. -/
def specThemes (reviews : List Review) : List (String × ℕ) :=
  (sortDescBy (fun wc => (wc.2 : ℚ)) (firstSeenCounts (allTokensOf reviews))).take 5

/-- The prices of the products sharing `base`'s category. -/
def categoryPrices (products : List Product) (base : Product) : List ℚ :=
  (products.filter (fun p => p.category = base.category)).map Product.price

/-! ### Example data used by concrete theorems -/

/-- A policy entity matching the laptop mapping. -/
def exPolicy : Policy :=
  { policy_type := "return", description := "Laptop Return Policy",
    conditions := ["unopened", "30 days"], timeframe := 30 }

/-- A review attached to product `p1`. -/
def exReviewP1 : Review :=
  { product_id := "p1", rating := 5, text := "great and fast", date := "2024-01-01" }

/-- A products row whose `price` is non-numeric and whose `stock` is
empty. -/
def malformedProductRow : ProductRow :=
  { id := "p9", name := "Gizmo", brand := "Acme", category := "laptop",
    price := "abc", description := "desc", stock := "", rating := "4" }

/-- A policies row whose `timeframe` is non-numeric. -/
def malformedPolicyRow : PolicyRow :=
  { policy_type := "return", description := "Laptop Return Policy",
    conditions := "unopened|30 days", timeframe := "soon" }

/-- An empty snapshot for concrete cache runs. -/
def exSnap : Snapshot := { products := [], reviews := [], policies := [] }

/-- A cold cache. -/
def exState0 : CacheState := { cache := none, lastLoaded := 0, lastModified := 0 }

/-- The environment of a first call: clock 100, sources modified at 5. -/
def exEnv1 : FsEnv := { now := 100, mtime := 5, disk := exSnap }

/-- The environment of a second call 100 ms later, sources untouched. -/
def exEnv2 : FsEnv := { now := 200, mtime := 5, disk := exSnap }

/-- The review sequence of the §8 summarization example: ratings
[5, 1, 3] with texts "great and fast", "broken and slow", "ok product". -/
def exReviewsC2 : List Review :=
  [{ product_id := "p1", rating := 5, text := "great and fast", date := "d1" },
   { product_id := "p1", rating := 1, text := "broken and slow", date := "d2" },
   { product_id := "p1", rating := 3, text := "ok product", date := "d3" }]

/-- A laptop in stock whose haystack hits both example query tokens. -/
def exLaptop1 : Product :=
  { id := "l1", name := "ThinkPad X1", brand := "Lenovo", category := "laptop",
    price := 1200, description := "light laptop", stock := 3, rating := 5 }

/-- An out-of-stock laptop. -/
def exLaptop2 : Product :=
  { id := "l2", name := "IdeaPad", brand := "Lenovo", category := "laptop",
    price := 700, description := "budget laptop", stock := 0, rating := 4 }

/-- A smartphone, filtered out by the category filter. -/
def exPhone : Product :=
  { id := "s1", name := "Galaxy", brand := "Samsung", category := "smartphone",
    price := 900, description := "phone", stock := 5, rating := 4 }

/-- A filter combination exercising every stage of `getProducts`. -/
def exFilters : Filters :=
  { category := some "laptop", query := some "lenovo laptop", minPrice := some 100,
    maxPrice := some 2000, inStockOnly := true }

/-- The base product of the §8 recommendation example: price 100,
rating 4, category laptop. -/
def exBase : Product :=
  { id := "base", name := "Base", brand := "B", category := "laptop",
    price := 100, description := "", stock := 1, rating := 4 }

/-- Candidate A of the example: price 100, stock 5, rating 4. -/
def exCandA : Product :=
  { id := "a", name := "A", brand := "B", category := "laptop",
    price := 100, description := "", stock := 5, rating := 4 }

/-- Candidate B of the example: price 300, stock 0, rating 5. -/
def exCandB : Product :=
  { id := "b", name := "Bee", brand := "B", category := "laptop",
    price := 300, description := "", stock := 0, rating := 5 }

/-- The cheapest laptop of the §8 price-comparison example. -/
def exPrice50 : Product :=
  { id := "x", name := "Fifty", brand := "B", category := "laptop",
    price := 50, description := "", stock := 1, rating := 3 }

/-- The middle-priced laptop of the example. -/
def exPrice70 : Product :=
  { id := "y", name := "Seventy", brand := "B", category := "laptop",
    price := 70, description := "", stock := 1, rating := 3 }

/-- The base laptop of the example, price 90. -/
def exPrice90 : Product :=
  { id := "z", name := "Ninety", brand := "B", category := "laptop",
    price := 90, description := "", stock := 1, rating := 3 }

/-- How `wordCounts.get` reads the association list. -/
def lookCount : List (String × ℕ) → String → ℕ
  | [], _ => 0
  | (w, c) :: rest, t => if w = t then c else lookCount rest t

/-! ### Helper lemmas -/

instance instIsTotalAscKey {α : Type} (key : α → ℚ) :
    IsTotal α (fun a b => key a ≤ key b) :=
  ⟨fun a b => le_total (key a) (key b)⟩

instance instIsTransAscKey {α : Type} (key : α → ℚ) :
    IsTrans α (fun a b => key a ≤ key b) :=
  ⟨fun _ _ _ h1 h2 => le_trans h1 h2⟩

instance instIsTotalDescKey {α : Type} (key : α → ℚ) :
    IsTotal α (fun a b => key b ≤ key a) :=
  ⟨fun a b => le_total (key b) (key a)⟩

instance instIsTransDescKey {α : Type} (key : α → ℚ) :
    IsTrans α (fun a b => key b ≤ key a) :=
  ⟨fun _ _ _ h1 h2 => le_trans h2 h1⟩

theorem getTextScore_foldl (product : Product) (tokens : List String) (s : ℕ) :
    tokens.foldl
      (fun score token =>
        if containsToken (productHaystack product) token then score + 2 else score) s =
      s + 2 * tokens.countP (fun token => containsToken (productHaystack product) token) := by
  induction tokens generalizing s with
  | nil => simp
  | cons t ts ih =>
    by_cases h : containsToken (productHaystack product) t = true
    · simp [List.countP_cons, h, ih]; ring
    · simp only [List.foldl_cons, List.countP_cons, h]
      simp [h, ih]

theorem getTextScore_eq_spec (product : Product) (tokens : List String) :
    getTextScore product tokens = specTextScore product tokens := by
  simpa [getTextScore, specTextScore] using getTextScore_foldl product tokens 0

theorem find?_congr_pred {α : Type} (p q : α → Bool) (h : ∀ a, p a = q a) :
    ∀ l : List α, l.find? p = l.find? q := by
  intro l
  induction l with
  | nil => rfl
  | cons a l ih =>
    simp only [List.find?]
    rw [h a, ih]

theorem countP_buckets (l : List Review) :
    l.countP reviewPositive + l.countP reviewNeutral + l.countP reviewNegative = l.length := by
  induction l with
  | nil => rfl
  | cons r l ih =>
    cases hp : reviewPositive r
    · cases hn : reviewNegative r
      · have hu : reviewNeutral r = true := by simp [reviewNeutral, hp, hn]
        simp [List.countP_cons, hp, hn, hu]; omega
      · have hu : reviewNeutral r = false := by simp [reviewNeutral, hn]
        simp [List.countP_cons, hp, hn, hu]; omega
    · have hn : reviewNegative r = false := by simp [reviewNegative, hp]
      have hu : reviewNeutral r = false := by simp [reviewNeutral, hp]
      simp [List.countP_cons, hp, hn, hu]; omega





/-! ### Claim theorems -/

/-- C1 (code_bug evidence): `load()` does not report a parse error on a
non-numeric numeric field.  On a products row with `price = "abc"` and
`stock = ""` it still constructs the product, with `price` silently
coerced to `NaN` and `stock` to `0`; likewise `parsePolicies` coerces a
non-numeric `timeframe` to `NaN`.  The return types of `loadProducts`
and `parsePolicies` (plain lists, no error channel) model that the
source has no failure path for malformed fields. -/
theorem load_malformed_numeric_coerced :
    loadProducts [malformedProductRow] =
      [{ id := "p9", name := "Gizmo", brand := "Acme", category := "laptop",
         price := JNum.nan, description := "desc", stock := JNum.val 0,
         rating := JNum.val 4 }] ∧
    parsePolicies [malformedPolicyRow] =
      [{ policy_type := "return", description := "Laptop Return Policy",
         conditions := ["unopened", "30 days"], timeframe := JNum.nan }] :=
  ⟨by decide, by decide⟩

/-- C3 (counterexample): `normalizeText` is not total on an
undefined/absent input — `undefined.toLowerCase()` throws a `TypeError`
instead of returning empty output. -/
theorem normalize_undefined_throws :
    normalizeTextJs JsStrArg.undef =
      Except.error "TypeError: Cannot read properties of undefined" := rfl

/-- C3 (amended): on every string input (the empty string included)
`normalizeText` returns — it is a total, deterministic function of the
string — and empty input yields empty output, for `tokenize` too; only
the undefined-input half of the claim fails. -/
theorem normalize_total_on_strings :
    (∀ s : String, normalizeTextJs (JsStrArg.str s) = Except.ok (normalizeText s)) ∧
      normalizeText "" = "" ∧ tokenize "" = [] :=
  ⟨fun _ => rfl, rfl, by decide⟩

/-- C8: policy lookup maps the category through `CATEGORY_POLICY_MAP`
and returns the first policy whose description equals the mapped name;
an unmapped category, a mapped name no policy carries, or an unknown
product id each give `none` (a value, not an exception — the functions
are total). -/
theorem policy_lookup_not_found :
    ∀ (products : List Product) (policies : List Policy) (category productId : String),
      (CATEGORY_POLICY_MAP category = none → getPolicyByCategory policies category = none) ∧
      (∀ pname, CATEGORY_POLICY_MAP category = some pname →
        getPolicyByCategory policies category =
          policies.find? (fun policy => policy.description = pname)) ∧
      (∀ pname, CATEGORY_POLICY_MAP category = some pname →
        (∀ policy ∈ policies, policy.description ≠ pname) →
        getPolicyByCategory policies category = none) ∧
      (productById products productId = none →
        getPolicyForProduct products policies productId = none) ∧
      (∀ base, productById products productId = some base →
        getPolicyForProduct products policies productId =
          getPolicyByCategory policies base.category) ∧
      CATEGORY_POLICY_MAP "laptop" = some "Laptop Return Policy" := by
  intro products policies category productId
  have congr2 : ∀ pname, CATEGORY_POLICY_MAP category = some pname →
      getPolicyByCategory policies category =
        policies.find? (fun policy => policy.description = pname) := by
    intro pname h
    simp only [getPolicyByCategory]
    rw [h]
    exact find?_congr_pred _ _ (fun a => decide_eq_decide.mpr (by simp [eq_comm])) policies
  refine ⟨?_, congr2, ?_, ?_, ?_, rfl⟩
  · intro h
    simp only [getPolicyByCategory]
    rw [h]
    exact List.find?_eq_none.mpr (fun x _ => by simp)
  · intro pname h hnone
    rw [congr2 pname h]
    exact List.find?_eq_none.mpr (fun x hx => by simpa using hnone x hx)
  · intro h
    simp [getPolicyForProduct, h]
  · intro base h
    simp [getPolicyForProduct, h]

/-- Witness for C8 at concrete inputs: an unmapped category, the mapped
laptop category, and an unknown product id. -/
theorem policy_lookup_not_found_witness :
    getPolicyByCategory [exPolicy] "toaster" = none ∧
    getPolicyByCategory [exPolicy] "laptop" =
      List.find? (fun policy => policy.description = "Laptop Return Policy") [exPolicy] ∧
    getPolicyForProduct [] [exPolicy] "nope" = none :=
  ⟨(policy_lookup_not_found [] [exPolicy] "toaster" "nope").1 (by decide),
   (policy_lookup_not_found [] [exPolicy] "laptop" "nope").2.1 "Laptop Return Policy" (by decide),
   (policy_lookup_not_found [] [exPolicy] "nope" "nope").2.2.2.1 (by decide)⟩

/-- C10: a product identifier with no reviews grouped under it —
whether or not it occurs in the catalog, which `getReviewSummary` never
consults — yields the zero-valued summary, not a failure or a not-found
signal. -/
theorem getReviewSummary_unknown_product_zero :
    ∀ (reviews : List Review) (productId : String),
      (∀ r ∈ reviews, r.product_id ≠ productId) →
      getReviewSummary reviews productId =
        { average_rating := 0, total_reviews := 0,
          sentiment := { positive := 0, neutral := 0, negative := 0 }, themes := [] } := by
  intro reviews productId h
  have hnil : reviewsForProduct reviews productId = [] := by
    rw [reviewsForProduct, List.filter_eq_nil_iff]
    intro r hr
    simpa using h r hr
  rw [getReviewSummary, hnil]
  rfl

/-- Witness for C10: a review store for `p1` only, queried for an id
absent from reviews and catalog alike. -/
theorem getReviewSummary_unknown_product_zero_witness :
    (∀ r ∈ [exReviewP1], r.product_id ≠ "unknown") ∧
      getReviewSummary [exReviewP1] "unknown" =
        { average_rating := 0, total_reviews := 0,
          sentiment := { positive := 0, neutral := 0, negative := 0 }, themes := [] } :=
  ⟨by decide, getReviewSummary_unknown_product_zero [exReviewP1] "unknown" (by decide)⟩

theorem countP_congr_pred {α : Type} (p q : α → Bool) (h : ∀ a, p a = q a) :
    ∀ l : List α, l.countP p = l.countP q := by
  intro l
  induction l with
  | nil => rfl
  | cons a l ih => simp [List.countP_cons, h a, ih]





/-- C6: within the 30-second staleness window `ensureFresh` is
idempotent — after any call that leaves a snapshot in place, a second
call within 30 000 ms of the recorded load time performs neither the
filesystem check nor a reload and leaves the state unchanged; and even
past the window, unchanged modification times mean no reload and an
unchanged snapshot. -/
theorem ensureFresh_idempotent_within_window :
    (∀ (env1 env2 : FsEnv) (st : CacheState),
      (ensureFresh env1 st).state.cache ≠ none →
      env2.now - (ensureFresh env1 st).state.lastLoaded ≤ 30000 →
      ensureFresh env2 (ensureFresh env1 st).state =
        { state := (ensureFresh env1 st).state, checkedFs := false, reloaded := false }) ∧
    (∀ (env : FsEnv) (st : CacheState),
      st.cache ≠ none → env.mtime ≤ st.lastModified →
      (ensureFresh env st).state = st ∧ (ensureFresh env st).reloaded = false) := by
  constructor
  · intro env1 env2 st h1 h2
    rw [ensureFresh, if_neg]
    rintro (hc | hlt)
    · exact h1 hc
    · omega
  · intro env st h1 h2
    by_cases hw : st.cache = none ∨ 30000 < env.now - st.lastLoaded
    · have hin : ¬(st.cache = none ∨ st.lastModified < env.mtime) := by
        rintro (hc | hm)
        · exact h1 hc
        · exact absurd h2 (not_le.mpr hm)
      rw [ensureFresh, if_pos hw, if_neg hin]
      exact ⟨rfl, rfl⟩
    · rw [ensureFresh, if_neg hw]
      exact ⟨rfl, rfl⟩

/-- Witness for C6: a cold cache loads at time 100; the second call at
time 200 (inside the window, mtimes unchanged) checks nothing and
reloads nothing. -/
theorem ensureFresh_idempotent_within_window_witness :
    ((ensureFresh exEnv1 exState0).state.cache ≠ none) ∧
    (exEnv2.now - (ensureFresh exEnv1 exState0).state.lastLoaded ≤ 30000) ∧
    ensureFresh exEnv2 (ensureFresh exEnv1 exState0).state =
      { state := (ensureFresh exEnv1 exState0).state,
        checkedFs := false, reloaded := false } :=
  ⟨by decide, by decide,
   ensureFresh_idempotent_within_window.1 exEnv1 exEnv2 exState0 (by decide) (by decide)⟩


/-- C2: every review of a non-empty sequence lands in exactly one
bucket — positive when rating ≥ 4 or sentiment > 0, else negative when
rating ≤ 2 or sentiment < 0, else neutral — and on the §8 example the
summary is average 3.0 with one review per bucket. -/
theorem summarizeReviews_buckets :
    (∀ reviews : List Review, reviews ≠ [] →
      (summarizeReviews reviews).sentiment.positive =
        reviews.countP (fun r => 4 ≤ r.rating || 0 < scoreSentiment r.text) ∧
      (summarizeReviews reviews).sentiment.negative =
        reviews.countP (fun r => !(4 ≤ r.rating || 0 < scoreSentiment r.text) &&
          (r.rating ≤ 2 || scoreSentiment r.text < 0)) ∧
      (summarizeReviews reviews).sentiment.neutral =
        reviews.countP (fun r => !(4 ≤ r.rating || 0 < scoreSentiment r.text) &&
          !(r.rating ≤ 2 || scoreSentiment r.text < 0)) ∧
      (summarizeReviews reviews).sentiment.positive +
          (summarizeReviews reviews).sentiment.neutral +
          (summarizeReviews reviews).sentiment.negative = reviews.length) ∧
    ((summarizeReviews exReviewsC2).average_rating = 3 ∧
      (summarizeReviews exReviewsC2).sentiment.positive = 1 ∧
      (summarizeReviews exReviewsC2).sentiment.negative = 1 ∧
      (summarizeReviews exReviewsC2).sentiment.neutral = 1 ∧
      (summarizeReviews exReviewsC2).total_reviews = 3) := by
  constructor
  · intro reviews hne
    have hlen : ¬ reviews.length = 0 := by
      simpa [List.length_eq_zero] using hne
    simp only [summarizeReviews, if_neg hlen]
    have hb : ∀ a b : Bool, (!a && !(!a && b)) = (!a && !b) := by decide
    refine ⟨rfl, rfl, ?_, ?_⟩
    · refine (countP_congr_pred _ _ (fun r => ?_) reviews).symm
      show (!reviewPositive r && !((r.rating ≤ 2 : Bool) || (scoreSentiment r.text < 0 : Bool)))
          = reviewNeutral r
      rw [reviewNeutral, reviewNegative]
      exact (hb _ _).symm
    · exact countP_buckets reviews
  · refine ⟨?_, by decide, by decide, by decide, by decide⟩
    norm_num [summarizeReviews, exReviewsC2, round2]

/-- Witness for C2's quantified part at the example reviews. -/
theorem summarizeReviews_buckets_witness :
    (exReviewsC2 ≠ []) ∧
    (summarizeReviews exReviewsC2).sentiment.positive +
        (summarizeReviews exReviewsC2).sentiment.neutral +
        (summarizeReviews exReviewsC2).sentiment.negative = exReviewsC2.length :=
  ⟨by decide, (summarizeReviews_buckets.1 exReviewsC2 (by decide)).2.2.2⟩





/-- C4: with a non-empty category and query (JavaScript truthiness makes
an empty string behave as an absent filter), `getProducts` is exactly
the §4.5 pipeline `specGetProducts`: category, then tokenized text query
scoring +2 per token substring hit, dropping zero scores and stable-
sorting descending, then inclusive min price, inclusive max price, then
in-stock. -/
theorem getProducts_filter_pipeline :
    ∀ (products : List Product) (filters : Filters),
      filters.category ≠ some "" → filters.query ≠ some "" →
      getProducts products filters = specGetProducts products filters := by
  intro products filters hc hq
  obtain ⟨cat, q, minP, maxP, stockOnly⟩ := filters
  have hmap : ∀ (l : List Product) (toks : List String),
      l.map (fun p => (p, getTextScore p toks)) = l.map (fun p => (p, specTextScore p toks)) :=
    fun l toks => List.map_congr_left (fun a _ => by rw [getTextScore_eq_spec])
  simp only [getProducts, specGetProducts]
  cases cat with
  | none =>
    cases q with
    | none => rfl
    | some qq =>
      have hqq : ¬ qq = "" := by simpa using hq
      simp only [if_neg hqq, hmap]
  | some c =>
    have hcc : ¬ c = "" := by simpa using hc
    cases q with
    | none => simp only [if_neg hcc]
    | some qq =>
      have hqq : ¬ qq = "" := by simpa using hq
      simp only [if_neg hcc, if_neg hqq, hmap]

/-- Witness for C4 at a concrete catalog and a filter combination using
every stage. -/
theorem getProducts_filter_pipeline_witness :
    (exFilters.category ≠ some "") ∧ (exFilters.query ≠ some "") ∧
      getProducts [exPhone, exLaptop2, exLaptop1] exFilters =
        specGetProducts [exPhone, exLaptop2, exLaptop1] exFilters :=
  ⟨by decide, by decide,
   getProducts_filter_pipeline [exPhone, exLaptop2, exLaptop1] exFilters
     (by decide) (by decide)⟩

example : getProducts [exPhone, exLaptop2, exLaptop1] exFilters = [exLaptop1] := by decide

example :
    getProducts [exPhone, exLaptop2, exLaptop1]
      { category := some "laptop", query := some "lenovo laptop" } =
      [exLaptop2, exLaptop1] := by decide




/-- C5: when the product id resolves, `getRecommendations` returns the
§4.5 mode-1 ranking `specRecommendations` — the other products of the
base's category, stable-sorted descending by rating×2 + price-proximity
+ stock score — and at most 6 of them; on the §8 example both
candidates score 10 and A precedes B by stable original order. -/
theorem getRecommendations_base_mode :
    (∀ (products : List Product) (pid : String) (query : Option String) (base : Product),
      pid ≠ "" → productById products pid = some base →
      getRecommendations products (some pid) query = specRecommendations products pid base ∧
      (getRecommendations products (some pid) query).length ≤ 6) ∧
    getRecommendations [exBase, exCandA, exCandB] (some "base") none =
      [exCandA, exCandB] := by
  constructor
  · intro products pid query base hpid hres
    have heq : getRecommendations products (some pid) query =
        specRecommendations products pid base := by
      simp only [getRecommendations, if_neg hpid, hres, Option.map_some']
      rfl
    refine ⟨heq, ?_⟩
    rw [heq]
    simp only [specRecommendations, List.length_map, List.length_take]
    exact min_le_left _ _
  · norm_num +decide [getRecommendations, productById, scoreRecommendation, sortDescBy,
      exBase, exCandA, exCandB, min_def, max_def, abs_of_nonneg]

/-- Witness for C5's quantified part at the example catalog. -/
theorem getRecommendations_base_mode_witness :
    ("base" ≠ "") ∧
    productById [exBase, exCandA, exCandB] "base" = some exBase ∧
    getRecommendations [exBase, exCandA, exCandB] (some "base") none =
      specRecommendations [exBase, exCandA, exCandB] "base" exBase ∧
    (getRecommendations [exBase, exCandA, exCandB] (some "base") none).length ≤ 6 :=
  ⟨by decide, by decide,
   (getRecommendations_base_mode.1 [exBase, exCandA, exCandB] "base" none exBase
      (by decide) (by decide)).1,
   (getRecommendations_base_mode.1 [exBase, exCandA, exCandB] "base" none exBase
      (by decide) (by decide)).2⟩




/-- C7: `getPriceComparison` is `none` exactly on an unresolved id;
otherwise it reports the min, max and mean price over the base's
category (each rounded to 2 decimals) and an ascending list of at most
5 strictly cheaper same-category products; on category prices
[50, 70, 90] with base price 90 it gives 50.00/90.00/70.00 and cheaper
list [50, 70]. -/
theorem getPriceComparison_category_stats :
    (∀ (products : List Product) (productId : String),
      productById products productId = none →
      getPriceComparison products productId = none) ∧
    (∀ (products : List Product) (productId : String) (base : Product)
        (comp : PriceComparison),
      productById products productId = some base →
      getPriceComparison products productId = some comp →
      comp.base = base ∧
      comp.min = round2 (listMin (categoryPrices products base)) ∧
      comp.max = round2 (listMax (categoryPrices products base)) ∧
      comp.avg = round2 ((categoryPrices products base).sum /
        (categoryPrices products base).length) ∧
      comp.cheaper.length ≤ 5 ∧
      (∀ p ∈ comp.cheaper, p.price < base.price ∧ p ∈ products ∧
        p.category = base.category) ∧
      comp.cheaper.Pairwise (fun a b => a.price ≤ b.price)) ∧
    getPriceComparison [exPrice50, exPrice70, exPrice90] "z" =
      some { base := exPrice90, min := 50, max := 90, avg := 70,
             cheaper := [exPrice50, exPrice70] } := by
  refine ⟨?_, ?_, ?_⟩
  · intro products productId h
    simp [getPriceComparison, h]
  · intro products productId base comp hres hcomp
    rw [getPriceComparison, hres] at hcomp
    have hcomp' := hcomp
    injection hcomp' with hcomp''
    subst hcomp''
    refine ⟨rfl, rfl, rfl, ?_, ?_, ?_, ?_⟩
    · simp [categoryPrices]
    · simp only [List.length_take]
      exact min_le_left _ _
    · intro p hp
      have hmem : p ∈ sortAscBy Product.price
          ((products.filter (fun q => q.category = base.category)).filter
            (fun q => q.price < base.price)) := by
        exact List.take_sublist 5 _ |>.mem hp
      rw [sortAscBy, List.mem_insertionSort] at hmem
      have h1 := List.of_mem_filter hmem
      have h2 := List.mem_of_mem_filter hmem
      have h3 := List.of_mem_filter h2
      have h4 := List.mem_of_mem_filter h2
      exact ⟨by simpa using h1, h4, by simpa using h3⟩
    · have hsorted : List.Sorted (fun a b : Product => a.price ≤ b.price)
          (sortAscBy Product.price
            ((products.filter (fun q => q.category = base.category)).filter
              (fun q => q.price < base.price))) := by
        rw [sortAscBy]
        exact List.sorted_insertionSort _ _
      exact List.Pairwise.sublist (List.take_sublist 5 _) hsorted
  · norm_num +decide [getPriceComparison, productById, categoryPrices, listMin, listMax,
      sortAscBy, round2, exPrice50, exPrice70, exPrice90, min_def, max_def]

/-- Witness for C7's quantified parts: an unknown id gives `none`, and
the example comparison's cheaper list respects the cap. -/
theorem getPriceComparison_category_stats_witness :
    getPriceComparison [exPrice50] "nope" = none ∧
    ({ base := exPrice90, min := 50, max := 90, avg := 70,
       cheaper := [exPrice50, exPrice70] } : PriceComparison).cheaper.length ≤ 5 :=
  ⟨getPriceComparison_category_stats.1 [exPrice50] "nope" (by decide),
   (getPriceComparison_category_stats.2.1 [exPrice50, exPrice70, exPrice90] "z" exPrice90 _
      (by decide) getPriceComparison_category_stats.2.2).2.2.2.2.1⟩


theorem lookCount_bumpCount_same (m : List (String × ℕ)) (t : String) :
    lookCount (bumpCount m t) t = lookCount m t + 1 := by
  induction m with
  | nil => simp [bumpCount, lookCount]
  | cons wc rest ih =>
    obtain ⟨w, c⟩ := wc
    by_cases hw : w = t
    · simp [bumpCount, lookCount, hw]
    · simp [bumpCount, lookCount, hw, ih]

theorem lookCount_bumpCount_ne (m : List (String × ℕ)) {s t : String} (h : s ≠ t) :
    lookCount (bumpCount m t) s = lookCount m s := by
  have hts : ¬ t = s := Ne.symm h
  induction m with
  | nil => simp [bumpCount, lookCount, hts]
  | cons wc rest ih =>
    obtain ⟨w, c⟩ := wc
    by_cases hw : w = t
    · subst hw
      simp [bumpCount, lookCount, hts]
    · simp [bumpCount, lookCount, hw, ih]

theorem keys_bumpCount (m : List (String × ℕ)) (t : String) :
    (bumpCount m t).map Prod.fst =
      if t ∈ m.map Prod.fst then m.map Prod.fst else m.map Prod.fst ++ [t] := by
  induction m with
  | nil => simp [bumpCount]
  | cons wc rest ih =>
    obtain ⟨w, c⟩ := wc
    by_cases hw : w = t
    · subst hw
      simp [bumpCount]
    · have htw : ¬ t = w := Ne.symm hw
      simp only [bumpCount, if_neg hw, List.map_cons, ih]
      by_cases hmem : t ∈ rest.map Prod.fst
      · simp [hmem, htw]
      · simp [hmem, htw]

theorem nodup_keys_bumpCount {m : List (String × ℕ)} (t : String)
    (h : (m.map Prod.fst).Nodup) : ((bumpCount m t).map Prod.fst).Nodup := by
  rw [keys_bumpCount]
  by_cases hmem : t ∈ m.map Prod.fst
  · simpa [hmem] using h
  · have hdisj : ∀ x ∈ m.map Prod.fst, x ∈ [t] → False := by
      intro x hx hxt
      rw [List.mem_singleton] at hxt
      subst hxt
      exact hmem hx
    simpa [hmem] using List.Nodup.append h (List.nodup_singleton t) hdisj

theorem lookCount_of_mem {m : List (String × ℕ)} (hnd : (m.map Prod.fst).Nodup)
    {w : String} {c : ℕ} (hmem : (w, c) ∈ m) : lookCount m w = c := by
  induction m with
  | nil => cases hmem
  | cons wc rest ih =>
    obtain ⟨a, b⟩ := wc
    rw [List.map_cons, List.nodup_cons] at hnd
    rcases List.mem_cons.mp hmem with heq | htail
    · injection heq with h1 h2
      subst h1
      subst h2
      simp [lookCount]
    · have ha : ¬ a = w := by
        rintro rfl
        have hmm : a ∈ rest.map Prod.fst := by
          simpa using List.mem_map_of_mem Prod.fst htail
        exact hnd.1 hmm
      simp only [lookCount, if_neg ha]
      exact ih hnd.2 htail

theorem lookCount_foldl (toks : List String) (m : List (String × ℕ)) (w : String) :
    lookCount (toks.foldl bumpCount m) w = lookCount m w + toks.count w := by
  induction toks generalizing m with
  | nil => simp
  | cons t ts ih =>
    by_cases hw : t = w
    · subst hw
      simp only [List.foldl_cons, ih, lookCount_bumpCount_same, List.count_cons]
      simp
      omega
    · simp only [List.foldl_cons, ih, lookCount_bumpCount_ne _ (Ne.symm hw),
        List.count_cons]
      simp [hw]

theorem nodup_keys_foldl (toks : List String) (m : List (String × ℕ))
    (h : (m.map Prod.fst).Nodup) :
    ((toks.foldl bumpCount m).map Prod.fst).Nodup := by
  induction toks generalizing m with
  | nil => simpa using h
  | cons t ts ih => exact ih _ (nodup_keys_bumpCount t h)

theorem count_of_mem_firstSeenCounts {toks : List String} {w : String} {c : ℕ}
    (hmem : (w, c) ∈ firstSeenCounts toks) : c = toks.count w := by
  have hnd : ((firstSeenCounts toks).map Prod.fst).Nodup :=
    nodup_keys_foldl toks [] (by simp)
  have h1 : lookCount (firstSeenCounts toks) w = c := lookCount_of_mem hnd hmem
  have h2 : lookCount (firstSeenCounts toks) w = lookCount [] w + toks.count w :=
    lookCount_foldl toks [] w
  simp [lookCount] at h2
  omega

theorem allTokensOf_cons (r : Review) (rs : List Review) :
    allTokensOf (r :: rs) = tokenize r.text ++ allTokensOf rs := by
  have hacc : ∀ (rs : List Review) (acc : List String),
      rs.foldl (fun a rr => a ++ tokenize rr.text) acc =
        acc ++ rs.foldl (fun a rr => a ++ tokenize rr.text) [] := by
    intro rs
    induction rs with
    | nil => simp
    | cons x xs ih =>
      intro acc
      rw [List.foldl_cons, ih (acc ++ tokenize x.text), List.foldl_cons]
      rw [ih (([] : List String) ++ tokenize x.text)]
      simp [List.append_assoc]
  rw [allTokensOf, List.foldl_cons, hacc]
  simp [allTokensOf]

theorem wordCountsOf_eq_firstSeen (reviews : List Review) :
    wordCountsOf reviews = firstSeenCounts (allTokensOf reviews) := by
  have key : ∀ (reviews : List Review) (m : List (String × ℕ)),
      reviews.foldl (fun mm r => (tokenize r.text).foldl bumpCount mm) m =
        (allTokensOf reviews).foldl bumpCount m := by
    intro reviews
    induction reviews with
    | nil => intro m; simp [allTokensOf]
    | cons r rs ih =>
      intro m
      rw [List.foldl_cons, ih, allTokensOf_cons, List.foldl_append]
  exact key reviews []

/-- C9: for a non-empty review sequence, the reported themes are the
§4.3 theme list `specThemes` — token frequencies over all bodies in
first-seen order, stable-sorted descending by count, top 5 — each
reported count being the true frequency of its word among all body
tokens, the list being at most 5 long and descending in count. -/
theorem summarizeReviews_themes :
    ∀ reviews : List Review, reviews ≠ [] →
      (summarizeReviews reviews).themes = specThemes reviews ∧
      (summarizeReviews reviews).themes.length ≤ 5 ∧
      (∀ wc ∈ (summarizeReviews reviews).themes,
        wc.2 = (allTokensOf reviews).count wc.1) ∧
      (summarizeReviews reviews).themes.Pairwise (fun a b => b.2 ≤ a.2) := by
  intro reviews hne
  have hlen : ¬ reviews.length = 0 := by
    simpa [List.length_eq_zero] using hne
  have hthemes : (summarizeReviews reviews).themes =
      (sortDescBy (fun wc => (wc.2 : ℚ)) (wordCountsOf reviews)).take 5 := by
    simp only [summarizeReviews]
    rw [if_neg hlen]
  have hspec : (summarizeReviews reviews).themes = specThemes reviews := by
    rw [hthemes, specThemes, wordCountsOf_eq_firstSeen]
  refine ⟨hspec, ?_, ?_, ?_⟩
  · rw [hthemes]
    simp only [List.length_take]
    exact min_le_left _ _
  · intro wc hmem
    rw [hspec, specThemes] at hmem
    have h1 : wc ∈ sortDescBy (fun wc => (wc.2 : ℚ))
        (firstSeenCounts (allTokensOf reviews)) :=
      (List.take_sublist 5 _).mem hmem
    rw [sortDescBy, List.mem_insertionSort] at h1
    obtain ⟨w, c⟩ := wc
    exact count_of_mem_firstSeenCounts h1
  · rw [hthemes]
    have hsorted : List.Sorted (fun a b : String × ℕ => ((b.2 : ℚ)) ≤ ((a.2 : ℚ)))
        (sortDescBy (fun wc => (wc.2 : ℚ)) (wordCountsOf reviews)) := by
      rw [sortDescBy]
      exact List.sorted_insertionSort _ _
    have hnat : List.Pairwise (fun a b : String × ℕ => b.2 ≤ a.2)
        (sortDescBy (fun wc => (wc.2 : ℚ)) (wordCountsOf reviews)) :=
      hsorted.imp (fun h => by exact_mod_cast h)
    exact List.Pairwise.sublist (List.take_sublist 5 _) hnat

/-- Witness for C9 at the example reviews. -/
theorem summarizeReviews_themes_witness :
    (exReviewsC2 ≠ []) ∧
    (summarizeReviews exReviewsC2).themes = specThemes exReviewsC2 ∧
    (summarizeReviews exReviewsC2).themes.length ≤ 5 :=
  ⟨by decide, (summarizeReviews_themes exReviewsC2 (by decide)).1,
   (summarizeReviews_themes exReviewsC2 (by decide)).2.1⟩

example :
    (summarizeReviews exReviewsC2).themes =
      [("great", 1), ("fast", 1), ("broken", 1), ("slow", 1), ("ok", 1)] := by decide

example : normalizeText "Hello, World!" = "hello  world " := by decide
example : tokenize "Hello, the World!" = ["hello", "world"] := by decide
example : scoreSentiment "broken and slow" = -2 := by decide
example : scoreSentiment "great and fast" = 2 := by decide
example : scoreSentiment "ok product" = 0 := by decide
example : containsToken "lenovo thinkpad laptop" "think" = true := by decide
example : round2 (209 / 3) = 6967 / 100 := by norm_num [round2]
example : jsNumber "abc" = JNum.nan := by decide
example : jsNumber "12k" = JNum.nan := by decide
example : jsNumber "" = JNum.val 0 := by decide
example : jsNumber "  " = JNum.val 0 := by decide
example : jsNumber "42" = JNum.val 42 := by decide
example : jsNumber " -3 " = JNum.val (-3) := by decide
example : jsNumber "12.5" ≠ JNum.nan := by decide
example : splitBar "a|b c|d" = ["a", "b c", "d"] := by decide

end SmartShop
